import Mathlib

/-
Shallow embedding of `src/inventory_system.py` (class `InventoryManager`).

Modelling conventions:
- Python's dynamically typed arguments are modelled by `PyVal`; `isinstance`
  checks follow Python semantics (in particular `bool` is a subclass of `int`,
  so `isinstance(True, int)` is true and `True` has integer value 1).
- A raised exception is modelled by `Except.error` carrying the exception
  class (`TypeError` / `ValueError`) and its message string.
- The Python `dict` (insertion-ordered, unique string keys) is modelled by an
  association list `List (String × Int)`; `dict_get`, `dict_set`, `dict_del`
  mirror `d.get(k, default)`, `d[k] = v` and `del d[k]` on such a dict:
  `dict_set` updates the first matching key in place (appending when absent)
  and `dict_del` drops the first matching entry, exactly as a dict whose keys
  are unique behaves. Where a lemma needs key uniqueness (the representation
  invariant every real dict satisfies) it takes it as a `Nodup` hypothesis.
- Log entries are stored without the `datetime.now()` timestamp prefix, which
  is ambient real time and outside the embedding; a Python entry
  `f"{timestamp}: Added {qty} of {item}"` is modelled as the string
  `"Added " ++ toString qty ++ " of " ++ item`.
- File I/O in `load_data` is modelled by a `FileRead` value describing what
  opening and JSON-parsing the file produced: `missing` (FileNotFoundError),
  `malformed msg` (json.JSONDecodeError with message `msg`), or
  `parsed j` (a successfully parsed JSON document `j`).  `save_data` returns
  the JSON document it writes together with the new state.
- JSON documents are modelled by `Json`; numbers are restricted to integers
  (the only numbers this program ever writes). `py_int` models Python's
  `int(v)` coercion used in `load_data`, returning `none` where Python would
  raise `TypeError`/`ValueError` (caught and skipped by the source).
-/

namespace Inventory

/-- A dynamically typed Python value, as passed to the methods of
`InventoryManager`. -/
inductive PyVal where
  | vInt (n : Int)
  | vBool (b : Bool)
  | vStr (s : String)
  | vNone
deriving Repr, DecidableEq

/-- Python `isinstance(v, int)`: true for `int` and for `bool`
(`bool` is a subclass of `int`). -/
def isinstance_int : PyVal → Bool
  | .vInt _ => true
  | .vBool _ => true
  | _ => false

/-- Python `isinstance(v, str)`. -/
def isinstance_str : PyVal → Bool
  | .vStr _ => true
  | _ => false

/-- The integer value of an int-like Python value (`True` counts as 1,
`False` as 0); 0 on non-integral values, which the code never reaches
because `isinstance` is checked first. -/
def as_int : PyVal → Int
  | .vInt n => n
  | .vBool b => if b then 1 else 0
  | _ => 0

/-- The string value of a str Python value; `""` on others, unreachable
after the `isinstance` check. -/
def as_str : PyVal → String
  | .vStr s => s
  | _ => ""

/-- Python `not item.strip()`: true exactly when the string is empty or
consists only of whitespace, i.e. stripping leaves nothing. -/
def strip_empty (s : String) : Bool :=
  s.data.all Char.isWhitespace

/-- A raised Python exception: its class and message. -/
inductive PyError where
  | typeError (msg : String)
  | valueError (msg : String)
deriving Repr, DecidableEq

/-- Whether an `Except` result is a raised `TypeError`. -/
def is_type_error {α : Type} : Except PyError α → Bool
  | .error (.typeError _) => true
  | _ => false

/-- Python `d.get(k, default)` on the association-list model of a dict. -/
def dict_get : List (String × Int) → String → Int → Int
  | [], _, d => d
  | (k', v) :: t, k, d => if k' = k then v else dict_get t k d

/-- Python `d[k] = v`: replace the value at the first occurrence of `k`,
or append `(k, v)` when `k` is absent (insertion order of a dict). -/
def dict_set : List (String × Int) → String → Int → List (String × Int)
  | [], k, v => [(k, v)]
  | (k', v') :: t, k, v =>
    if k' = k then (k', v) :: t else (k', v') :: dict_set t k v

/-- Python `del d[k]`: drop the first occurrence of `k` (the only one,
for a real dict). -/
def dict_del : List (String × Int) → String → List (String × Int)
  | [], _ => []
  | (k', v) :: t, k => if k' = k then t else (k', v) :: dict_del t k

/-- Python `k in d` on the association-list model of a dict. -/
def contains_key : List (String × Int) → String → Bool
  | [], _ => false
  | (k', _) :: t, k => k' = k || contains_key t k

/-- The state of an `InventoryManager` instance: `stock_data` (the ledger
dict) and `activity_log` (the append-only log list). -/
structure InventoryManager where
  stock_data : List (String × Int)
  activity_log : List String
deriving Repr, DecidableEq

/-- `InventoryManager.__init__`: empty stock and log. -/
def InventoryManager.init : InventoryManager :=
  { stock_data := [], activity_log := [] }

/-- `InventoryManager.add_item(item, qty)` with `logs=None` (the default),
so entries go to the instance `activity_log`.  Validates types, a non-empty
stripped item name, and `qty >= 0`, then sets
`stock_data[item] = stock_data.get(item, 0) + qty` and appends one log
entry `"Added {qty} of {item}"`. -/
def add_item (self : InventoryManager) (item qty : PyVal) :
    Except PyError InventoryManager :=
  if !(isinstance_str item && isinstance_int qty) then
    .error (.typeError "Item must be a string and qty must be an integer")
  else if strip_empty (as_str item) then
    .error (.valueError "Item name cannot be empty")
  else if as_int qty < 0 then
    .error (.valueError "Quantity to add cannot be negative")
  else
    .ok { stock_data :=
            dict_set self.stock_data (as_str item)
              (dict_get self.stock_data (as_str item) 0 + as_int qty),
          activity_log :=
            self.activity_log ++
              ["Added " ++ toString (as_int qty) ++ " of " ++ as_str item] }

/-- `InventoryManager.add_item()` with both arguments defaulted:
`item="default"`, `qty=0`. -/
def add_item_default (self : InventoryManager) :
    Except PyError InventoryManager :=
  add_item self (.vStr "default") (.vInt 0)

/-- `InventoryManager.remove_item(item, qty)` with `logs=None` (the
default).  Validates types and `qty >= 0`; silently ignores items whose
current quantity is 0; otherwise removes `min(qty, current)`, deleting the
key when the new quantity is not positive, and appends one log entry
`"Removed {actual_qty_removed} of {item}"`. -/
def remove_item (self : InventoryManager) (item qty : PyVal) :
    Except PyError InventoryManager :=
  if !(isinstance_str item && isinstance_int qty) then
    .error (.typeError "Item must be a string and qty must be an integer")
  else if as_int qty < 0 then
    .error (.valueError "Quantity to remove cannot be negative")
  else
    let current := dict_get self.stock_data (as_str item) 0
    if current = 0 then
      .ok self
    else
      let actual_qty_removed := min (as_int qty) current
      let new_qty := current - actual_qty_removed
      if new_qty > 0 then
        .ok { stock_data :=
                dict_set self.stock_data (as_str item) new_qty,
              activity_log :=
                self.activity_log ++
                  ["Removed " ++ toString actual_qty_removed ++ " of " ++
                    as_str item] }
      else
        .ok { stock_data := dict_del self.stock_data (as_str item),
              activity_log :=
                self.activity_log ++
                  ["Removed " ++ toString actual_qty_removed ++ " of " ++
                    as_str item] }

/-- `InventoryManager.get_qty(item)`: type-checks `item`, then returns
`stock_data.get(item, 0)`. -/
def get_qty (self : InventoryManager) (item : PyVal) : Except PyError Int :=
  if !(isinstance_str item) then
    .error (.typeError "Item must be a string")
  else
    .ok (dict_get self.stock_data (as_str item) 0)

/-- A JSON document, as produced by `json.load` / consumed by `json.dump`.
Numbers are restricted to integers, the only numbers this program writes. -/
inductive Json where
  | jNull
  | jBool (b : Bool)
  | jNum (n : Int)
  | jStr (s : String)
  | jArr (xs : List Json)
  | jObj (kvs : List (String × Json))
deriving Repr

/-- Whether a JSON document is an object (`isinstance(data, dict)`). -/
def Json.isObj : Json → Bool
  | .jObj _ => true
  | _ => false

/-- Python `int(v)` on a JSON value: `none` where Python raises
`TypeError` or `ValueError` (null, arrays, objects, unparsable strings),
which `load_data` catches and skips. -/
def py_int : Json → Option Int
  | .jNum n => some n
  | .jBool b => some (if b then 1 else 0)
  | .jStr s => s.trim.toInt?
  | _ => none

/-- The `cleaned` loop of `load_data`: fold the parsed object's entries,
keeping `k ↦ int(v)` for every value that coerces (keys of a parsed JSON
object are always strings, so the non-string-key `continue` is vacuous). -/
def clean_entries (acc : List (String × Int)) :
    List (String × Json) → List (String × Int)
  | [] => acc
  | (k, v) :: t =>
    match py_int v with
    | some n => clean_entries (dict_set acc k n) t
    | none => clean_entries acc t

/-- What opening and JSON-parsing the file named in `load_data` produced:
the file is absent (`FileNotFoundError`), present but not valid JSON
(`json.JSONDecodeError` with message `msg`), or parsed into a document. -/
inductive FileRead where
  | missing
  | malformed (msg : String)
  | parsed (data : Json)
deriving Repr

/-- `InventoryManager.load_data(file)` where reading the file gives
`contents`.  Missing file: empty stock, log note, no error.  Malformed
JSON: stock kept, log note, no error.  Parsed non-object: uncaught
`ValueError` (a bare `ValueError` is not a `json.JSONDecodeError`), state
untouched.  Parsed object: stock replaced by the cleaned entries, log
note appended. -/
def load_data (self : InventoryManager) (contents : FileRead)
    (file : String) : Except PyError InventoryManager :=
  match contents with
  | .missing =>
      .ok { stock_data := [],
            activity_log :=
              self.activity_log ++
                ["Inventory file not found; initialized empty"] }
  | .malformed msg =>
      .ok { stock_data := self.stock_data,
            activity_log :=
              self.activity_log ++
                ["Failed to parse " ++ file ++ ": " ++ msg] }
  | .parsed data =>
      match data with
      | .jObj kvs =>
          .ok { stock_data := clean_entries [] kvs,
                activity_log :=
                  self.activity_log ++ ["Loaded inventory from " ++ file] }
      | _ => .error (.valueError "Invalid inventory file format")

/-- `InventoryManager.save_data(file)`: the JSON object written to the
file (an object mapping each stocked item to its integer quantity, in
dict order) together with the new state, whose log gained one entry. -/
def save_data (self : InventoryManager) (file : String) :
    Json × InventoryManager :=
  (Json.jObj (self.stock_data.map (fun kv => (kv.1, Json.jNum kv.2))),
   { stock_data := self.stock_data,
     activity_log := self.activity_log ++ ["Saved inventory to " ++ file] })

/-- `InventoryManager.check_low_items(threshold)`: raises `ValueError`
unless `threshold` is a non-negative integer, else returns the names of
items with quantity strictly below `threshold`, in dict order. -/
def check_low_items (self : InventoryManager) (threshold : PyVal) :
    Except PyError (List String) :=
  if !(isinstance_int threshold) || as_int threshold < 0 then
    .error (.valueError "Threshold must be a non-negative integer")
  else
    .ok ((self.stock_data.filter
            (fun kv => decide (kv.2 < as_int threshold))).map
          (fun kv => kv.1))

/-- One method call on an `InventoryManager`, for reasoning about
sequences of operations. -/
inductive Op where
  | add (item qty : PyVal)
  | remove (item qty : PyVal)
  | load (contents : FileRead) (file : String)
  | save (file : String)
  | query (item : PyVal)
  | low (threshold : PyVal)
deriving Repr

/-- The state after one method call.  A raised exception leaves the state
as it was: every raise in the source happens before any mutation
(`add_item`/`remove_item` validate first; `load_data` raises its
`ValueError` before assigning `stock_data` or logging). -/
def step (self : InventoryManager) : Op → InventoryManager
  | .add item qty =>
      match add_item self item qty with
      | .ok s => s
      | .error _ => self
  | .remove item qty =>
      match remove_item self item qty with
      | .ok s => s
      | .error _ => self
  | .load contents file =>
      match load_data self contents file with
      | .ok s => s
      | .error _ => self
  | .save file => (save_data self file).2
  | .query _ => self
  | .low _ => self

/-- The state after a sequence of method calls on a fresh instance. -/
def run (ops : List Op) : InventoryManager :=
  ops.foldl step InventoryManager.init

/-- Every quantity present in the ledger is strictly positive. -/
def stock_positive (l : List (String × Int)) : Prop :=
  ∀ kv ∈ l, 0 < kv.2

instance (l : List (String × Int)) : Decidable (stock_positive l) := by
  unfold stock_positive; infer_instance

/-- A JSON value that `load_data` would keep coerces to a positive
integer. -/
def json_val_pos (v : Json) : Bool :=
  match py_int v with
  | some n => decide (0 < n)
  | none => true

/-- Sufficient condition on one operation for it to preserve ledger
positivity: `add` only with a strictly positive quantity (a failing type
check also qualifies, since it mutates nothing), `load` only from JSON
objects all of whose kept values are positive. -/
def op_safe : Op → Bool
  | .add _ qty => !(isinstance_int qty) || decide (1 ≤ as_int qty)
  | .load (.parsed (.jObj kvs)) _ => kvs.all (fun kv => json_val_pos kv.2)
  | _ => true

/-! ### Lemmas about the dict model -/

theorem dict_get_dict_set_self (l : List (String × Int)) (k : String)
    (v d : Int) : dict_get (dict_set l k v) k d = v := by
  induction l with
  | nil => simp [dict_set, dict_get]
  | cons hd t ih =>
    obtain ⟨k', v'⟩ := hd
    by_cases h : k' = k
    · simp [dict_set, dict_get, h]
    · simp [dict_set, dict_get, h, ih]

theorem dict_set_of_not_contains (l : List (String × Int)) (k : String)
    (v : Int) (h : contains_key l k = false) :
    dict_set l k v = l ++ [(k, v)] := by
  induction l with
  | nil => simp [dict_set]
  | cons hd t ih =>
    obtain ⟨k', v'⟩ := hd
    simp only [contains_key, Bool.or_eq_false_iff, decide_eq_false_iff_not] at h
    simp [dict_set, h.1, ih h.2]

theorem dict_get_of_not_contains (l : List (String × Int)) (k : String)
    (d : Int) (h : contains_key l k = false) : dict_get l k d = d := by
  induction l with
  | nil => simp [dict_get]
  | cons hd t ih =>
    obtain ⟨k', v'⟩ := hd
    simp only [contains_key, Bool.or_eq_false_iff, decide_eq_false_iff_not] at h
    simp [dict_get, h.1, ih h.2]

theorem contains_key_iff_mem (l : List (String × Int)) (k : String) :
    contains_key l k = true ↔ k ∈ l.map Prod.fst := by
  induction l with
  | nil => simp [contains_key]
  | cons hd t ih =>
    obtain ⟨k', v'⟩ := hd
    simp only [contains_key, Bool.or_eq_true, decide_eq_true_eq,
      List.map_cons, List.mem_cons, ih]
    rw [@eq_comm String k' k]

theorem contains_key_append (l₁ l₂ : List (String × Int)) (k : String) :
    contains_key (l₁ ++ l₂) k = (contains_key l₁ k || contains_key l₂ k) := by
  induction l₁ with
  | nil => simp [contains_key]
  | cons hd t ih =>
    obtain ⟨k', v'⟩ := hd
    simp [contains_key, ih, Bool.or_assoc]

theorem mem_of_mem_dict_del (l : List (String × Int)) (k : String)
    (kv : String × Int) (h : kv ∈ dict_del l k) : kv ∈ l := by
  induction l with
  | nil => simp [dict_del] at h
  | cons hd t ih =>
    obtain ⟨k', v'⟩ := hd
    by_cases hk : k' = k
    · simp only [dict_del, if_pos hk] at h
      exact List.mem_cons_of_mem _ h
    · simp only [dict_del, if_neg hk] at h
      rcases List.mem_cons.mp h with h | h
      · exact h ▸ List.mem_cons_self _ _
      · exact List.mem_cons_of_mem _ (ih h)

theorem contains_key_dict_del (l : List (String × Int)) (k : String)
    (hnd : (l.map Prod.fst).Nodup) :
    contains_key (dict_del l k) k = false := by
  induction l with
  | nil => simp [dict_del, contains_key]
  | cons hd t ih =>
    obtain ⟨k', v'⟩ := hd
    simp only [List.map_cons, List.nodup_cons] at hnd
    by_cases hk : k' = k
    · simp only [dict_del, if_pos hk]
      subst hk
      rcases h : contains_key t k' with _ | _
      · rfl
      · exact absurd ((contains_key_iff_mem t k').mp h) hnd.1
    · simp [dict_del, if_neg hk, contains_key, hk, ih hnd.2]

theorem stock_positive_dict_get (l : List (String × Int)) (k : String)
    (h : stock_positive l) : 0 ≤ dict_get l k 0 := by
  induction l with
  | nil => simp [dict_get]
  | cons hd t ih =>
    obtain ⟨k', v'⟩ := hd
    by_cases hk : k' = k
    · simpa [dict_get, hk] using le_of_lt (h (k', v') (List.mem_cons_self _ _))
    · simpa [dict_get, hk] using
        ih (fun kv hm => h kv (List.mem_cons_of_mem _ hm))

theorem stock_positive_dict_set (l : List (String × Int)) (k : String)
    (v : Int) (hl : stock_positive l) (hv : 0 < v) :
    stock_positive (dict_set l k v) := by
  induction l with
  | nil =>
    intro kv hm
    simp only [dict_set, List.mem_singleton] at hm
    simpa [hm] using hv
  | cons hd t ih =>
    obtain ⟨k', v'⟩ := hd
    by_cases hk : k' = k
    · intro kv hm
      simp only [dict_set, if_pos hk] at hm
      rcases List.mem_cons.mp hm with h | h
      · simpa [h] using hv
      · exact hl kv (List.mem_cons_of_mem _ h)
    · intro kv hm
      simp only [dict_set, if_neg hk] at hm
      rcases List.mem_cons.mp hm with h | h
      · exact h ▸ hl (k', v') (List.mem_cons_self _ _)
      · exact ih (fun kv' hm' => hl kv' (List.mem_cons_of_mem _ hm')) kv h

theorem stock_positive_dict_del (l : List (String × Int)) (k : String)
    (hl : stock_positive l) : stock_positive (dict_del l k) :=
  fun kv hm => hl kv (mem_of_mem_dict_del l k kv hm)

theorem contains_key_of_dict_get_zero (l : List (String × Int)) (k : String)
    (hl : stock_positive l) (h : dict_get l k 0 = 0) :
    contains_key l k = false := by
  induction l with
  | nil => simp [contains_key]
  | cons hd t ih =>
    obtain ⟨k', v'⟩ := hd
    by_cases hk : k' = k
    · exfalso
      have hv : 0 < v' := hl (k', v') (List.mem_cons_self _ _)
      rw [dict_get, if_pos hk] at h
      omega
    · simp only [dict_get, if_neg hk] at h
      simp [contains_key, hk,
        ih (fun kv hm => hl kv (List.mem_cons_of_mem _ hm)) h]

/-! ### Round-trip of `save_data` and the `cleaned` loop of `load_data` -/

theorem clean_entries_map_jNum (l : List (String × Int)) :
    ∀ acc : List (String × Int), (l.map Prod.fst).Nodup →
      (∀ k ∈ l.map Prod.fst, contains_key acc k = false) →
      clean_entries acc (l.map (fun kv => (kv.1, Json.jNum kv.2))) =
        acc ++ l := by
  induction l with
  | nil => intro acc _ _; simp [clean_entries]
  | cons hd t ih =>
    intro acc hnd hdisj
    obtain ⟨k, v⟩ := hd
    simp only [List.map_cons, List.nodup_cons] at hnd
    simp only [List.map_cons, clean_entries, py_int]
    rw [dict_set_of_not_contains acc k v
      (hdisj k (by simp))]
    rw [ih (acc ++ [(k, v)]) hnd.2 ?_]
    · simp
    · intro k' hk'
      rw [contains_key_append]
      have h1 : contains_key acc k' = false :=
        hdisj k' (List.mem_cons_of_mem _ hk')
      have h2 : contains_key [(k, v)] k' = false := by
        simp only [contains_key, Bool.or_eq_false_iff, decide_eq_false_iff_not]
        exact ⟨fun hkk => hnd.1 (hkk ▸ hk'), trivial⟩
      simp [h1, h2]

/-! ### Positivity preservation of one `step` -/

theorem clean_entries_positive (kvs : List (String × Json)) :
    ∀ acc : List (String × Int),
      (∀ kv ∈ kvs, json_val_pos kv.2 = true) → stock_positive acc →
      stock_positive (clean_entries acc kvs) := by
  induction kvs with
  | nil => intro acc _ hacc; exact hacc
  | cons hd t ih =>
    intro acc hall hacc
    obtain ⟨k, v⟩ := hd
    have hhd : json_val_pos v = true := hall (k, v) (List.mem_cons_self _ _)
    have htl : ∀ kv ∈ t, json_val_pos kv.2 = true :=
      fun kv hm => hall kv (List.mem_cons_of_mem _ hm)
    simp only [clean_entries]
    cases hpv : py_int v with
    | none => exact ih acc htl hacc
    | some n =>
      have hn : 0 < n := by
        simp only [json_val_pos, hpv, decide_eq_true_eq] at hhd
        exact hhd
      exact ih (dict_set acc k n) htl (stock_positive_dict_set acc k n hacc hn)

theorem step_preserves_positive (s : InventoryManager) (op : Op)
    (hs : stock_positive s.stock_data) (hop : op_safe op = true) :
    stock_positive (step s op).stock_data := by
  cases op with
  | add item qty =>
    simp only [step]
    cases hres : add_item s item qty with
    | error e => exact hs
    | ok s' =>
      unfold add_item at hres
      cases htyp : (isinstance_str item && isinstance_int qty) with
      | false => rw [htyp] at hres; simp at hres
      | true =>
        rw [htyp] at hres
        rw [if_neg (by simp)] at hres
        by_cases hemp : strip_empty (as_str item) = true
        · rw [if_pos hemp] at hres; exact absurd hres (by simp)
        · rw [if_neg hemp] at hres
          by_cases hneg : as_int qty < 0
          · rw [if_pos hneg] at hres; exact absurd hres (by simp)
          · rw [if_neg hneg] at hres
            have hone : 1 ≤ as_int qty := by
              simp only [op_safe, Bool.and_eq_true] at hop htyp
              rcases Bool.or_eq_true_iff.mp hop with h | h
              · rw [htyp.2] at h; exact absurd h (by simp)
              · exact of_decide_eq_true h
            have hlist := Except.ok.inj hres
            rw [← hlist]
            refine stock_positive_dict_set _ _ _ hs ?_
            have := stock_positive_dict_get s.stock_data (as_str item) hs
            omega
  | remove item qty =>
    simp only [step]
    cases hres : remove_item s item qty with
    | error e => exact hs
    | ok s' =>
      unfold remove_item at hres
      cases htyp : (isinstance_str item && isinstance_int qty) with
      | false => rw [htyp] at hres; simp at hres
      | true =>
        rw [htyp] at hres
        rw [if_neg (by simp)] at hres
        by_cases hneg : as_int qty < 0
        · rw [if_pos hneg] at hres; exact absurd hres (by simp)
        · rw [if_neg hneg] at hres
          simp only at hres
          by_cases hcur : dict_get s.stock_data (as_str item) 0 = 0
          · rw [if_pos hcur] at hres
            rw [← Except.ok.inj hres]
            exact hs
          · rw [if_neg hcur] at hres
            by_cases hpos :
                dict_get s.stock_data (as_str item) 0 -
                  min (as_int qty) (dict_get s.stock_data (as_str item) 0) > 0
            · rw [if_pos hpos] at hres
              rw [← Except.ok.inj hres]
              exact stock_positive_dict_set _ _ _ hs hpos
            · rw [if_neg hpos] at hres
              rw [← Except.ok.inj hres]
              exact stock_positive_dict_del _ _ hs
  | load contents file =>
    simp only [step]
    cases hres : load_data s contents file with
    | error e => exact hs
    | ok s' =>
      cases contents with
      | missing =>
        simp only [load_data] at hres
        rw [← Except.ok.inj hres]
        intro kv hm
        simp at hm
      | malformed msg =>
        simp only [load_data] at hres
        rw [← Except.ok.inj hres]
        exact hs
      | parsed data =>
        cases data with
        | jObj kvs =>
          simp only [load_data] at hres
          rw [← Except.ok.inj hres]
          have hall : ∀ kv ∈ kvs, json_val_pos kv.2 = true := by
            simpa [op_safe, List.all_eq_true] using hop
          exact clean_entries_positive kvs [] hall (by intro kv hm; simp at hm)
        | jNull => simp [load_data] at hres
        | jBool b => simp [load_data] at hres
        | jNum n => simp [load_data] at hres
        | jStr str => simp [load_data] at hres
        | jArr xs => simp [load_data] at hres
  | save file => exact hs
  | query item => exact hs
  | low threshold => exact hs

theorem foldl_step_positive (ops : List Op) :
    ∀ s : InventoryManager, stock_positive s.stock_data →
      (∀ op ∈ ops, op_safe op = true) →
      stock_positive (List.foldl step s ops).stock_data := by
  induction ops with
  | nil => intro s hs _; exact hs
  | cons op t ih =>
    intro s hs hall
    simp only [List.foldl_cons]
    exact ih (step s op)
      (step_preserves_positive s op hs (hall op (List.mem_cons_self _ _)))
      (fun op' hm => hall op' (List.mem_cons_of_mem _ hm))

/-! ### Evaluation of `remove_item` on well-typed arguments -/

theorem remove_item_spec (s : InventoryManager) (item : String) (qty : PyVal)
    (hq : isinstance_int qty = true) (hneg : ¬ as_int qty < 0) :
    remove_item s (PyVal.vStr item) qty =
      (if dict_get s.stock_data item 0 = 0 then Except.ok s
       else if dict_get s.stock_data item 0 -
           min (as_int qty) (dict_get s.stock_data item 0) > 0 then
         Except.ok
           { stock_data :=
               dict_set s.stock_data item
                 (dict_get s.stock_data item 0 -
                   min (as_int qty) (dict_get s.stock_data item 0)),
             activity_log :=
               s.activity_log ++
                 ["Removed " ++
                   toString (min (as_int qty) (dict_get s.stock_data item 0))
                   ++ " of " ++ item] }
       else
         Except.ok
           { stock_data := dict_del s.stock_data item,
             activity_log :=
               s.activity_log ++
                 ["Removed " ++
                   toString (min (as_int qty) (dict_get s.stock_data item 0))
                   ++ " of " ++ item] }) := by
  unfold remove_item
  rw [if_neg (by simp [isinstance_str, hq]), if_neg hneg]
  rfl

/-! ### The claims -/

/-- Claim C1, counterexample: the single-call sequence
`add_item("default", 0)` starting from the empty ledger leaves the key
`"default"` present with value 0, so the strict-positivity invariant
claimed for every sequence of operations fails. -/
theorem C1_counterexample :
    run [Op.add (PyVal.vStr "default") (PyVal.vInt 0)] =
      { stock_data := [("default", 0)], activity_log := ["Added 0 of default"] } ∧
    ¬ stock_positive
        (run [Op.add (PyVal.vStr "default") (PyVal.vInt 0)]).stock_data :=
  ⟨by rfl, by decide⟩

/-- Claim C1, amended: starting from the empty ledger, every value present
in the ledger is strictly positive after every sequence of operations in
which each `add_item` call passes a quantity of integer value at least 1
(or a quantity failing the integer type check, which mutates nothing) and
each `load_data` call reads a JSON object all of whose integer-coercible
values are strictly positive; `remove_item`, `save_data`, `get_qty` and
`check_low_items` need no restriction. -/
theorem C1_ledger_positivity (ops : List Op)
    (h : ∀ op ∈ ops, op_safe op = true) :
    stock_positive (run ops).stock_data :=
  foldl_step_positive ops InventoryManager.init
    (fun kv hm => absurd hm (List.not_mem_nil kv)) h

/-- Claim C1, witness: a concrete safe sequence (add 10 apples, remove 3,
load a file with one positive entry, save) whose final ledger is strictly
positive. -/
theorem C1_witness :
    (∀ op ∈ [Op.add (PyVal.vStr "apple") (PyVal.vInt 10),
        Op.remove (PyVal.vStr "apple") (PyVal.vInt 3),
        Op.load (FileRead.parsed (Json.jObj [("a", Json.jNum 2)]))
          "inventory.json",
        Op.save "inventory.json"], op_safe op = true) ∧
    stock_positive
      (run [Op.add (PyVal.vStr "apple") (PyVal.vInt 10),
        Op.remove (PyVal.vStr "apple") (PyVal.vInt 3),
        Op.load (FileRead.parsed (Json.jObj [("a", Json.jNum 2)]))
          "inventory.json",
        Op.save "inventory.json"]).stock_data :=
  ⟨by decide, C1_ledger_positivity _ (by decide)⟩

/-- Claim C2, counterexample: on the ledger `{"default": 0}` (reachable by
`add_item("default", 0)`), calling `remove_item("default", 5)` with
`5 ≥ current = 0` returns without touching the ledger, leaving the item
present with value 0 — contradicting the claim that the item is absent
after removing at least its current quantity. -/
theorem C2_counterexample :
    remove_item { stock_data := [("default", 0)], activity_log := [] }
        (PyVal.vStr "default") (PyVal.vInt 5) =
      Except.ok { stock_data := [("default", 0)], activity_log := [] } ∧
    dict_get [("default", (0 : Int))] "default" 0 ≤ 5 ∧
    contains_key [("default", (0 : Int))] "default" = true :=
  ⟨by rfl, by decide, by rfl⟩

/-- Claim C2, amended: on every ledger satisfying the spec's positivity
invariant (and the dict's key-uniqueness representation invariant), after
`remove_item(item, q)` with `q` a non-negative integer at least the item's
current quantity, the item is absent from the ledger. -/
theorem C2_remove_ge_absent (s : InventoryManager) (item : String) (q : Int)
    (hpos : stock_positive s.stock_data)
    (hnd : (s.stock_data.map Prod.fst).Nodup)
    (hq : 0 ≤ q) (hge : dict_get s.stock_data item 0 ≤ q) :
    ∃ s', remove_item s (PyVal.vStr item) (PyVal.vInt q) = Except.ok s' ∧
      contains_key s'.stock_data item = false := by
  rw [remove_item_spec s item (PyVal.vInt q) rfl (by simpa [as_int] using hq)]
  by_cases hcur : dict_get s.stock_data item 0 = 0
  · rw [if_pos hcur]
    exact ⟨s, rfl, contains_key_of_dict_get_zero _ _ hpos hcur⟩
  · rw [if_neg hcur]
    have hmin : min (as_int (PyVal.vInt q)) (dict_get s.stock_data item 0) =
        dict_get s.stock_data item 0 := by
      simp only [as_int]
      exact min_eq_right hge
    rw [hmin, if_neg (by omega)]
    exact ⟨_, rfl, contains_key_dict_del _ _ hnd⟩

/-- Claim C2, witness: removing 5 from a stock of 3 apples deletes the
`"apple"` key. -/
theorem C2_witness :
    stock_positive [("apple", (3 : Int))] ∧
    ([("apple", (3 : Int))].map Prod.fst).Nodup ∧
    (0 : Int) ≤ 5 ∧ dict_get [("apple", (3 : Int))] "apple" 0 ≤ 5 ∧
    ∃ s', remove_item { stock_data := [("apple", 3)], activity_log := [] }
        (PyVal.vStr "apple") (PyVal.vInt 5) = Except.ok s' ∧
      contains_key s'.stock_data "apple" = false :=
  ⟨by decide, by decide, by decide, by decide,
    C2_remove_ge_absent { stock_data := [("apple", 3)], activity_log := [] }
      "apple" 5 (by decide) (by decide) (by decide) (by decide)⟩

/-- Claim C3: for every ledger whose quantities are all non-negative (and
whose keys are unique, as in any real dict), loading the JSON document
written by `save_data(path)` back with `load_data(path)` — from any prior
state — reproduces exactly the saved key-to-quantity pairs. -/
theorem C3_save_load_roundtrip (s s' : InventoryManager) (file : String)
    (hnd : (s.stock_data.map Prod.fst).Nodup)
    (_hnn : ∀ kv ∈ s.stock_data, 0 ≤ kv.2) :
    load_data s' (FileRead.parsed (save_data s file).1) file =
      Except.ok { stock_data := s.stock_data,
                  activity_log :=
                    s'.activity_log ++ ["Loaded inventory from " ++ file] } := by
  show (Except.ok
      ({ stock_data :=
           clean_entries []
             (s.stock_data.map (fun kv => (kv.1, Json.jNum kv.2))),
         activity_log :=
           s'.activity_log ++ ["Loaded inventory from " ++ file] } :
        InventoryManager) : Except PyError InventoryManager) =
    Except.ok { stock_data := s.stock_data,
                activity_log :=
                  s'.activity_log ++ ["Loaded inventory from " ++ file] }
  rw [clean_entries_map_jNum s.stock_data [] hnd (fun k _ => rfl),
    List.nil_append]

/-- Claim C3, witness: a two-item ledger survives the save/load round
trip on a fresh manager. -/
theorem C3_witness :
    (([("apple", (7 : Int)), ("banana", 2)].map Prod.fst).Nodup) ∧
    (∀ kv ∈ [("apple", (7 : Int)), ("banana", 2)], 0 ≤ kv.2) ∧
    load_data InventoryManager.init
        (FileRead.parsed
          (save_data { stock_data := [("apple", 7), ("banana", 2)],
                       activity_log := ["old"] } "inventory.json").1)
        "inventory.json" =
      Except.ok { stock_data := [("apple", 7), ("banana", 2)],
                  activity_log :=
                    InventoryManager.init.activity_log ++
                      ["Loaded inventory from " ++ "inventory.json"] } :=
  ⟨by decide, by decide,
    C3_save_load_roundtrip
      { stock_data := [("apple", 7), ("banana", 2)], activity_log := ["old"] }
      InventoryManager.init "inventory.json" (by decide) (by decide)⟩

/-- Claim C4: for every prior state, `load_data` on a file that exists but
holds malformed JSON returns normally (no exception), leaves the ledger
unchanged, and appends exactly one log entry recording the parse failure
message. -/
theorem C4_load_malformed (s : InventoryManager) (file msg : String) :
    load_data s (FileRead.malformed msg) file =
      Except.ok { stock_data := s.stock_data,
                  activity_log :=
                    s.activity_log ++
                      ["Failed to parse " ++ file ++ ": " ++ msg] } := rfl

/-- Claim C5, counterexample: `check_low_items` with the non-integer
threshold `"five"` raises `ValueError`, not the `TypeError` the claim
(via the spec's TypeMismatch taxonomy) requires. -/
theorem C5_counterexample :
    check_low_items { stock_data := [("a", 3)], activity_log := [] }
        (PyVal.vStr "five") =
      Except.error
        (PyError.valueError "Threshold must be a non-negative integer") ∧
    is_type_error
        (check_low_items { stock_data := [("a", 3)], activity_log := [] }
          (PyVal.vStr "five")) = false :=
  ⟨rfl, rfl⟩

/-- Claim C5, amended: `check_low_items` fails with a `ValueError` (the
spec's InvalidArgument, matching §4.1's `lowStock` contract rather than
§7's taxonomy line) whenever its threshold argument is not an integer. -/
theorem C5_threshold_value_error (s : InventoryManager) (threshold : PyVal)
    (h : isinstance_int threshold = false) :
    check_low_items s threshold =
      Except.error
        (PyError.valueError "Threshold must be a non-negative integer") := by
  unfold check_low_items
  rw [if_pos (by simp [h])]

/-- Claim C5, witness: the string threshold `"five"` on a fresh manager
raises the `ValueError`. -/
theorem C5_witness :
    isinstance_int (PyVal.vStr "five") = false ∧
    check_low_items InventoryManager.init (PyVal.vStr "five") =
      Except.error
        (PyError.valueError "Threshold must be a non-negative integer") :=
  ⟨rfl, C5_threshold_value_error InventoryManager.init (PyVal.vStr "five") rfl⟩

/-- Claim C6: for every prior state, `load_data` on a non-existent file
returns normally (no exception), sets the ledger to empty, and appends
exactly one log entry `"Inventory file not found; initialized empty"`. -/
theorem C6_load_missing (s : InventoryManager) (file : String) :
    load_data s FileRead.missing file =
      Except.ok { stock_data := [],
                  activity_log :=
                    s.activity_log ++
                      ["Inventory file not found; initialized empty"] } := rfl

/-- Claim C7: on a ledger with unique keys where `item` is present with
quantity `c > 0`, `remove_item(item, q)` with `q ≥ 0` succeeds, leaves the
item's quantity at `c - min(q, c)` (the key being absent when that is 0),
and appends exactly one log entry `"Removed {min(q, c)} of {item}"`
carrying the actual amount removed. -/
theorem C7_remove_partial (s : InventoryManager) (item : String) (q c : Int)
    (hnd : (s.stock_data.map Prod.fst).Nodup)
    (hc : dict_get s.stock_data item 0 = c)
    (hcpos : 0 < c) (hq : 0 ≤ q) :
    ∃ s', remove_item s (PyVal.vStr item) (PyVal.vInt q) = Except.ok s' ∧
      dict_get s'.stock_data item 0 = c - min q c ∧
      (c - min q c = 0 → contains_key s'.stock_data item = false) ∧
      s'.activity_log = s.activity_log ++
        ["Removed " ++ toString (min q c) ++ " of " ++ item] := by
  rw [remove_item_spec s item (PyVal.vInt q) rfl (by simpa [as_int] using hq)]
  simp only [as_int] at *
  rw [hc, if_neg (by omega)]
  by_cases hpos : c - min q c > 0
  · rw [if_pos hpos]
    refine ⟨_, rfl, ?_, ?_, rfl⟩
    · exact dict_get_dict_set_self _ _ _ _
    · intro h0; omega
  · rw [if_neg hpos]
    have h0 : c - min q c = 0 := by
      have := min_le_right q c
      omega
    refine ⟨_, rfl, ?_, ?_, rfl⟩
    · rw [h0]
      exact dict_get_of_not_contains _ _ _ (contains_key_dict_del _ _ hnd)
    · intro _
      exact contains_key_dict_del _ _ hnd

/-- Claim C7, witness: removing 3 from a stock of 10 apples leaves 7 and
logs `"Removed 3 of apple"`. -/
theorem C7_witness :
    ([("apple", (10 : Int))].map Prod.fst).Nodup ∧
    dict_get [("apple", (10 : Int))] "apple" 0 = 10 ∧
    (0 : Int) < 10 ∧ (0 : Int) ≤ 3 ∧
    ∃ s', remove_item { stock_data := [("apple", 10)], activity_log := [] }
        (PyVal.vStr "apple") (PyVal.vInt 3) = Except.ok s' ∧
      dict_get s'.stock_data "apple" 0 = 10 - min 3 10 ∧
      ((10 : Int) - min 3 10 = 0 → contains_key s'.stock_data "apple" = false) ∧
      s'.activity_log = [] ++ ["Removed " ++ toString (min (3 : Int) 10) ++
        " of " ++ "apple"] :=
  ⟨by decide, by decide, by decide, by decide,
    C7_remove_partial { stock_data := [("apple", 10)], activity_log := [] }
      "apple" 3 10 (by decide) (by decide) (by decide) (by decide)⟩

/-- Claim C8: for every prior state, `load_data` on a file that parses as
valid JSON whose top-level value is not an object raises `ValueError`
(`"Invalid inventory file format"` — a bare `ValueError`, not caught by
the `json.JSONDecodeError` handler), and the raise happens before any
mutation, so the ledger and the activity log are both left unchanged. -/
theorem C8_load_invalid_format (s : InventoryManager) (data : Json)
    (file : String) (h : data.isObj = false) :
    load_data s (FileRead.parsed data) file =
      Except.error (PyError.valueError "Invalid inventory file format") ∧
    step s (Op.load (FileRead.parsed data) file) = s := by
  have hl : load_data s (FileRead.parsed data) file =
      Except.error (PyError.valueError "Invalid inventory file format") := by
    cases data with
    | jObj kvs => simp [Json.isObj] at h
    | jNull => rfl
    | jBool b => rfl
    | jNum n => rfl
    | jStr str => rfl
    | jArr xs => rfl
  exact ⟨hl, by simp only [step, hl]⟩

/-- Claim C8, witness: loading a top-level JSON array over a non-empty
ledger and log raises the `ValueError` and changes neither. -/
theorem C8_witness :
    Json.isObj (Json.jArr []) = false ∧
    (load_data { stock_data := [("x", 7)], activity_log := ["old"] }
        (FileRead.parsed (Json.jArr [])) "inventory.json" =
      Except.error (PyError.valueError "Invalid inventory file format") ∧
    step { stock_data := [("x", 7)], activity_log := ["old"] }
        (Op.load (FileRead.parsed (Json.jArr [])) "inventory.json") =
      { stock_data := [("x", 7)], activity_log := ["old"] }) :=
  ⟨rfl, C8_load_invalid_format
    { stock_data := [("x", 7)], activity_log := ["old"] }
    (Json.jArr []) "inventory.json" rfl⟩

/-- Claim C9: `add_item` called with both arguments defaulted
(`item="default"`, `qty=0`) on a state where `"default"` is absent
succeeds, inserts the key `"default"` with quantity 0, and appends the
log entry `"Added 0 of default"`. -/
theorem C9_add_defaults (s : InventoryManager)
    (h : contains_key s.stock_data "default" = false) :
    add_item_default s =
      Except.ok { stock_data := s.stock_data ++ [("default", 0)],
                  activity_log :=
                    s.activity_log ++ ["Added 0 of default"] } := by
  unfold add_item_default add_item
  rw [if_neg (by decide), if_neg (by decide), if_neg (by decide)]
  simp only [as_str, as_int]
  rw [dict_get_of_not_contains _ _ _ h, dict_set_of_not_contains _ _ _ h]
  have hstr : "Added " ++ toString (0 : Int) ++ " of " ++ "default" =
      "Added 0 of default" := rfl
  rw [hstr]
  norm_num

/-- Claim C9, witness: on a fresh manager, the defaulted call inserts
`("default", 0)` and logs `"Added 0 of default"`. -/
theorem C9_witness :
    contains_key InventoryManager.init.stock_data "default" = false ∧
    add_item_default InventoryManager.init =
      Except.ok { stock_data := InventoryManager.init.stock_data ++
                    [("default", 0)],
                  activity_log :=
                    InventoryManager.init.activity_log ++
                      ["Added 0 of default"] } :=
  ⟨rfl, C9_add_defaults InventoryManager.init rfl⟩

/-- Claim C10: Python booleans pass the `isinstance(…, int)` checks:
for every state and every non-blank item name, `add_item(item, True)`
succeeds (no TypeError) and increases the item's quantity by exactly 1,
and `remove_item(item, True)` and `check_low_items(True)` also accept the
boolean and return without error. -/
theorem C10_bool_accepted (s : InventoryManager) (item : String)
    (hitem : strip_empty item = false) :
    (∃ s₁, add_item s (PyVal.vStr item) (PyVal.vBool true) = Except.ok s₁ ∧
        dict_get s₁.stock_data item 0 = dict_get s.stock_data item 0 + 1) ∧
    (∃ s₂, remove_item s (PyVal.vStr item) (PyVal.vBool true) =
        Except.ok s₂) ∧
    (∃ r, check_low_items s (PyVal.vBool true) = Except.ok r) := by
  refine ⟨?_, ?_, ?_⟩
  · unfold add_item
    rw [if_neg (by simp [isinstance_str, isinstance_int]),
      if_neg (by simp [as_str, hitem]), if_neg (by decide)]
    refine ⟨_, rfl, ?_⟩
    simp [as_str, as_int, dict_get_dict_set_self]
  · rw [remove_item_spec s item (PyVal.vBool true) rfl (by decide)]
    split
    · exact ⟨s, rfl⟩
    · split
      · exact ⟨_, rfl⟩
      · exact ⟨_, rfl⟩
  · unfold check_low_items
    rw [if_neg (by decide)]
    exact ⟨_, rfl⟩

/-- Claim C10, witness: with 7 apples in stock, `add_item("apple", True)`
yields 8, and the boolean is accepted by `remove_item` and
`check_low_items` as well. -/
theorem C10_witness :
    strip_empty "apple" = false ∧
    ((∃ s₁, add_item { stock_data := [("apple", 7)], activity_log := [] }
          (PyVal.vStr "apple") (PyVal.vBool true) = Except.ok s₁ ∧
        dict_get s₁.stock_data "apple" 0 =
          dict_get [("apple", (7 : Int))] "apple" 0 + 1) ∧
     (∃ s₂, remove_item { stock_data := [("apple", 7)], activity_log := [] }
          (PyVal.vStr "apple") (PyVal.vBool true) = Except.ok s₂) ∧
     (∃ r, check_low_items { stock_data := [("apple", 7)], activity_log := [] }
          (PyVal.vBool true) = Except.ok r)) :=
  ⟨by decide, C10_bool_accepted
    { stock_data := [("apple", 7)], activity_log := [] } "apple" (by decide)⟩

end Inventory
